import Mathlib

/-!
# CourseMonitorClient — verification of the natural-language specification

Shallow embedding of the core logic of the CourseMonitorClient repository
(a self-reporting agent: challenge-response authentication, an API test
harness with result aggregation, a report-submission pipeline with bounded
retry, and a server-command dispatcher), together with proofs and refutations
of the specification claims.

Conventions used throughout:
* JavaScript values that flow through the truncation / sanitization helpers
  are modelled by the inductive type `JsValue`; JS numbers are modelled by
  `JsNum`, which distinguishes finite values (as rationals) from `NaN`,
  `Infinity` and `-Infinity`.
* Asynchronous I/O (HTTP calls, file reads) is modelled by explicit oracle
  parameters: a `ServerModel` maps the attempt index to the server's reply,
  signing is an abstract function parameter, and fallible operations return
  `Except`.
* The repository contains two historical variants of `reporter-core.js`
  (concatenated in the source file); definitions from the first variant keep
  the source name under `ReporterCore`, those from the second variant live
  under `ReporterCoreV2`.
* Recursive self-calls (`authenticate` retrying itself) are modelled with an
  explicit fuel parameter; the constructor `fuelExhausted` marks a run that
  is still recursing when the fuel runs out.
-/

/-! ## JavaScript value model -/

/-- A JavaScript number: either a finite value (modelled as a rational) or
one of the non-finite values `NaN`, `Infinity`, `-Infinity`. -/
inductive JsNum where
  | finite (q : ℚ)
  | nan
  | inf
  | negInf
deriving DecidableEq, Repr

/-- A JavaScript value as it occurs in response payloads and report records:
`null`, `undefined`, booleans, numbers, strings, arrays and plain objects
(ordered key/value lists). -/
inductive JsValue where
  | vNull
  | vUndefined
  | vBool (b : Bool)
  | vNum (n : JsNum)
  | vStr (s : String)
  | vArr (elems : List JsValue)
  | vObj (fields : List (String × JsValue))

/-! ## Response-payload truncation (`truncateResponseData` in
`src/api/student-api.js`, lines 23-74)

The JS helper `truncateValue` truncates over-long strings (appending a
suffix recording the original length), limits arrays to `maxArrayItems`
items (appending a trailing marker string recording how many items were
dropped), and recurses through objects.  String lengths are JS `length`
values; for the BMP strings that occur here this coincides with the
codepoint count used by `String.length`. -/

mutual

/-- `truncateValue` from `truncateResponseData`: truncates a single value. -/
def truncateValue (maxLength maxArrayItems : Nat) : JsValue → JsValue
  | .vNull => .vNull
  | .vUndefined => .vUndefined
  | .vBool b => .vBool b
  | .vNum n => .vNum n
  | .vStr s =>
      if s.length > maxLength then
        .vStr (s.take maxLength ++ "... (原长度: " ++ toString s.length ++ ")")
      else .vStr s
  | .vArr xs =>
      let t := truncateList maxLength maxArrayItems maxArrayItems xs
      if xs.length > maxArrayItems then
        .vArr (t ++ [.vStr ("... (另外还有 " ++ toString (xs.length - maxArrayItems) ++ " 项)\"")])
      else .vArr t
  | .vObj fs => .vObj (truncateFields maxLength maxArrayItems fs)

/-- `value.slice(0, maxArrayItems).map(truncateValue)`: keeps at most `n`
items and truncates each kept item. -/
def truncateList (maxLength maxArrayItems : Nat) : Nat → List JsValue → List JsValue
  | _, [] => []
  | 0, _ :: _ => []
  | n + 1, x :: xs =>
      truncateValue maxLength maxArrayItems x :: truncateList maxLength maxArrayItems n xs

/-- Object branch of `truncateValue`: truncates every property value. -/
def truncateFields (maxLength maxArrayItems : Nat) :
    List (String × JsValue) → List (String × JsValue)
  | [] => []
  | (k, v) :: rest =>
      (k, truncateValue maxLength maxArrayItems v) :: truncateFields maxLength maxArrayItems rest

end

/-- An axios response object as consumed by `truncateResponseData`. -/
structure AxiosResponse where
  status : Nat
  statusText : String
  headers : Option (List (String × String))
  data : JsValue

/-- `truncateResponseData(response, maxLength = 5000, maxArrayItems = 100)`:
copies the status line and headers and truncates the payload. -/
def truncateResponseData (maxLength maxArrayItems : Nat) :
    Option AxiosResponse → Option AxiosResponse
  | none => none
  | some r =>
      some { status := r.status, statusText := r.statusText, headers := r.headers,
             data := truncateValue maxLength maxArrayItems r.data }

mutual

/-- A value is within the truncation bounds: every string has length at most
`maxLength` and every array at most `maxArrayItems` items, recursively. -/
def inBoundsVal (maxLength maxArrayItems : Nat) : JsValue → Bool
  | .vNull => true
  | .vUndefined => true
  | .vBool _ => true
  | .vNum _ => true
  | .vStr s => s.length ≤ maxLength
  | .vArr xs => xs.length ≤ maxArrayItems && inBoundsList maxLength maxArrayItems xs
  | .vObj fs => inBoundsFields maxLength maxArrayItems fs

/-- All list elements are within bounds. -/
def inBoundsList (maxLength maxArrayItems : Nat) : List JsValue → Bool
  | [] => true
  | x :: xs => inBoundsVal maxLength maxArrayItems x && inBoundsList maxLength maxArrayItems xs

/-- All object property values are within bounds. -/
def inBoundsFields (maxLength maxArrayItems : Nat) : List (String × JsValue) → Bool
  | [] => true
  | (_, v) :: rest =>
      inBoundsVal maxLength maxArrayItems v && inBoundsFields maxLength maxArrayItems rest

end

mutual

/-- Boolean equality test on `JsValue`, used to compute with concrete
counterexamples. -/
def JsValue.beq : JsValue → JsValue → Bool
  | .vNull, .vNull => true
  | .vUndefined, .vUndefined => true
  | .vBool a, .vBool b => a == b
  | .vNum a, .vNum b => a == b
  | .vStr a, .vStr b => a == b
  | .vArr a, .vArr b => JsValue.beqList a b
  | .vObj a, .vObj b => JsValue.beqFields a b
  | _, _ => false

/-- Pointwise `JsValue.beq` on lists. -/
def JsValue.beqList : List JsValue → List JsValue → Bool
  | [], [] => true
  | x :: xs, y :: ys => JsValue.beq x y && JsValue.beqList xs ys
  | _, _ => false

/-- Pointwise `JsValue.beq` on object fields. -/
def JsValue.beqFields : List (String × JsValue) → List (String × JsValue) → Bool
  | [], [] => true
  | (k, v) :: xs, (k2, v2) :: ys => k == k2 && JsValue.beq v v2 && JsValue.beqFields xs ys
  | _, _ => false

end

/-- A payload on which truncation is not idempotent: an array of 102 numbers.
One application keeps 100 items and appends a marker recording 2 dropped
items (101 items in total); a second application drops that marker and
appends a marker recording 1 dropped item. -/
def truncEx : JsValue := .vArr (List.replicate 102 (.vNum (.finite 0)))

/-- The axios response wrapping `truncEx`, as fed to `truncateResponseData`. -/
def truncExResp : AxiosResponse :=
  { status := 200, statusText := "OK", headers := none, data := truncEx }

/-! ## Test result aggregation (`TestResults` in `src/api/student-api.js`,
lines 77-119) -/

/-- One entry pushed onto `this.tests` by `addResult` (the extra spread
`testData` payload carries no further information used by the summary and is
not modelled). -/
structure TestEntry where
  name : String
  passed : Bool
  message : String
deriving DecidableEq, Repr

/-- The `TestResults` collector state. -/
structure TestResults where
  passed : Nat
  failed : Nat
  total : Nat
  tests : List TestEntry
deriving DecidableEq, Repr

/-- `new TestResults()`. -/
def TestResults.new : TestResults := { passed := 0, failed := 0, total := 0, tests := [] }

/-- `addResult(name, passed, message, testData)`: bumps the pass or fail
counter, bumps the total, and appends the entry. -/
def TestResults.addResult (r : TestResults) (name : String) (passed : Bool)
    (message : String) : TestResults :=
  { passed := if passed then r.passed + 1 else r.passed
    failed := if passed then r.failed else r.failed + 1
    total := r.total + 1
    tests := r.tests ++ [{ name := name, passed := passed, message := message }] }

/-- JS `Math.round`: round to nearest, halves toward positive infinity. -/
def jsRound (q : ℚ) : ℤ := ⌊q + 1 / 2⌋

/-- Zero-pad the two-digit fraction part of `toFixed2`. -/
def pad2 (m : Nat) : String := if m < 10 then "0" ++ toString m else toString m

/-- JS `x.toFixed(2)` for nonnegative `x`, modelled by exact rational
rounding (nearest, ties away from zero); the binary floating-point
representation error of JS numbers is abstracted away. -/
def toFixed2 (q : ℚ) : String :=
  let n : Nat := (⌊q * 100 + 1 / 2⌋).toNat
  toString (n / 100) ++ "." ++ pad2 (n % 100)

/-- The object returned by `getSummary()`.  The `timestamp` field
(`new Date().toISOString()`) is an impure clock read and is not modelled. -/
structure Summary where
  passed : Nat
  failed : Nat
  total : Nat
  tests : List TestEntry
  passRate : String
  score : ℤ
  maxPossibleScore : Nat
deriving DecidableEq, Repr

/-- `getSummary()`: the `this.passed || 0` guards collapse to the stored
counts since the fields here are always numbers.  Note that `score` is the
rounded pass percentage `Math.round((passed / total) * 100)`, not ten points
per passing test; `maxPossibleScore` is `total * 10`. -/
def TestResults.getSummary (r : TestResults) : Summary :=
  { passed := r.passed
    failed := r.failed
    total := r.total
    tests := r.tests
    passRate :=
      if r.total ≠ 0 then toFixed2 ((r.passed : ℚ) / (r.total : ℚ) * 100) ++ "%" else "0%"
    score := if r.total ≠ 0 then jsRound ((r.passed : ℚ) / (r.total : ℚ) * 100) else 0
    maxPossibleScore := r.total * 10 }

/-- The C2 scenario: a module of four cases (create, read, update, delete)
that all pass, recorded in order. -/
def scenario4 : TestResults :=
  ((((TestResults.new.addResult "create" true "ok").addResult
      "read" true "ok").addResult "update" true "ok").addResult "delete" true "ok")

/-! ## Claim C10: collector invariant -/

/-- A sequence of `addResult` calls, applied in order. -/
def TestResults.addAll (r : TestResults) : List (String × Bool × String) → TestResults
  | [] => r
  | (n, p, m) :: rest => (r.addResult n p m).addAll rest

/-- The mutual-consistency invariant of the collector counters. -/
def TestResults.consistent (r : TestResults) : Prop :=
  r.passed + r.failed = r.total ∧ r.total = r.tests.length

/-! ## Challenge-response authentication (`ReporterCore.authenticate`)

`src/core/reporter-core.js` contains two variants of `authenticate`.  In the
first (lines 103-183) a verify error whose body carries
`requiresReregistration` triggers `generateAndSaveKeyPair` followed by a
recursive `this.authenticate(config)` call, with no retry counter.  In the
second (lines 674-718) the same condition raises a terminal error telling
the user to re-run setup, and no key is regenerated.

The server is an oracle indexed by the attempt number.  Local key
generation and private-key file reads are assumed to succeed (their failure
paths are orthogonal to the retry-bound claims), and `sign` is an abstract
function of the key (identified by how many regenerations have happened)
and the challenge. -/

/-- `s.includes(pat)` candidate positions: does `cs` begin with `pat`? -/
def charsBeginWith : List Char → List Char → Bool
  | [], _ => true
  | _ :: _, [] => false
  | p :: ps, c :: cs => p == c && charsBeginWith ps cs

/-- Does `cs` contain `pat` as a contiguous subsequence? -/
def charsContain (pat : List Char) : List Char → Bool
  | [] => charsBeginWith pat []
  | c :: cs => charsBeginWith pat (c :: cs) || charsContain pat cs

/-- JS `s.includes(pat)`. -/
def jsIncludes (s pat : String) : Bool := charsContain pat.toList s.toList

/-- Outcome of `POST /auth/verify/…`: success, or an HTTP error whose JSON
body may carry `requiresReregistration` and an `error` message string. -/
inductive VerifyReply where
  | ok
  | err (requiresReregistration : Bool) (msg : String)
deriving DecidableEq, Repr

/-- The server as seen by `authenticate`: for the `n`-th attempt of one
call, the challenge returned by `GET /auth/challenge/…` and the reply to
`POST /auth/verify/…`. -/
structure ServerModel where
  challenge : Nat → String
  verify : Nat → VerifyReply

/-- Result of an `authenticate` call.  The error constructors correspond to
the distinct `throw` sites of the two variants. -/
inductive AuthOutcome where
  | success (challenge signature : String)
  | noKeyPair
  | emptyChallenge
  | reregRequired
  | notRegistered
  | verificationFailed
  | verifyError (msg : String)
  | fuelExhausted
deriving DecidableEq, Repr

/-- First-variant `authenticate` (`reporter-core.js` lines 103-183).
Arguments after `sign`: whether `config.keyPair` is set, the recursion
fuel (a modelling bound; the JS recursion has none), the attempt index, and
the number of key regenerations performed so far.  Returns the outcome and
the total number of automatic key regenerations. -/
def ReporterCore.authenticate (srv : ServerModel) (sign : Nat → String → String) :
    Bool → Nat → Nat → Nat → AuthOutcome × Nat
  | _, 0, _, regens => (.fuelExhausted, regens)
  | hasKeyPair, fuel + 1, attempt, regens =>
      if hasKeyPair then
        let c := srv.challenge attempt
        if c = "" then (.emptyChallenge, regens)
        else
          match srv.verify attempt with
          | .ok => (.success c (sign regens c), regens)
          | .err rereg _ =>
              if rereg then
                ReporterCore.authenticate srv sign true fuel (attempt + 1) (regens + 1)
              else (.verifyError "签名验证失败", regens)
      else (.noKeyPair, regens)

/-- Second-variant `authenticate` (`reporter-core.js` lines 674-718): a
single attempt; `requiresReregistration` raises a terminal "re-run setup"
error, other verify errors are classified by substring matching on the
server's `error` message.  No key is ever regenerated automatically. -/
def ReporterCoreV2.authenticate (srv : ServerModel) (sign : String → String)
    (hasKeyPair : Bool) : AuthOutcome :=
  if hasKeyPair then
    let c := srv.challenge 0
    if c = "" then .emptyChallenge
    else
      match srv.verify 0 with
      | .ok => .success c (sign c)
      | .err rereg msg =>
          if rereg then .reregRequired
          else if jsIncludes msg "没有注册公钥" || jsIncludes msg "未找到公钥" then
            .notRegistered
          else if jsIncludes msg "验证失败" || jsIncludes msg "签名无效" then
            .verificationFailed
          else .verifyError msg
  else .noKeyPair

/-- A server that always answers the verify step with
`requiresReregistration`. -/
def srvAlwaysRereg : ServerModel :=
  { challenge := fun _ => "challenge", verify := fun _ => .err true "需要重新注册" }

/-- A placeholder signing function for concrete runs. -/
def signExample : Nat → String → String := fun k c => "sig-" ++ toString k ++ "-" ++ c

/-! ## Report submission (`ReporterCore.sendReport`)

First variant (`reporter-core.js` lines 329-413): posts the report; if the
error body carries `requiresAuth` together with a (truthy) fresh
`challenge`, the new challenge is signed with the current private key and
the report is posted a second time; a failure of that second post — of any
kind — propagates to the caller.  Any other error body is thrown as-is.

Second variant (lines 852-939): fetches a fresh challenge itself, signs it,
posts once, and classifies any error body by substring matching; it never
resubmits. -/

/-- The server's reply to one `POST /students/report`: a 2xx body with an
optional `command`, an error body (`requiresAuth` flag, embedded `challenge`
string — `""` models an absent/falsy one — and `error` message), or a
transport failure without a response body. -/
inductive ReportReply where
  | ok (command : Option String)
  | err (requiresAuth : Bool) (challenge : String) (msg : String)
  | netErr (msg : String)
deriving DecidableEq, Repr

/-- Result of a `sendReport` call: the attempts count records how many
`POST /students/report` requests were issued, and on success `finalSig` is
the signature the accepted report carried. -/
inductive SendOutcome where
  | success (command : Option String) (attempts : Nat) (finalSig : String)
  | failure (msg : String) (attempts : Nat)
deriving DecidableEq, Repr

/-- How many report posts a `sendReport` run issued. -/
def SendOutcome.attempts : SendOutcome → Nat
  | .success _ n _ => n
  | .failure _ n => n

/-- First-variant `sendReport` (lines 329-413).  `reply n` is the server's
answer to the `n`-th post of this call, `sign` signs a challenge with the
current private key, and `sig0` is the signature already present in the
report data. -/
def ReporterCore.sendReport (reply : Nat → ReportReply) (sign : String → String)
    (sig0 : String) : SendOutcome :=
  match reply 0 with
  | .ok cmd => .success cmd 1 sig0
  | .err requiresAuth challenge msg =>
      if requiresAuth && challenge != "" then
        match reply 1 with
        | .ok cmd => .success cmd 2 (sign challenge)
        | .err _ _ msg2 => .failure msg2 2
        | .netErr m2 => .failure m2 2
      else .failure msg 1
  | .netErr m => .failure m 1

/-- Error classification of the second-variant `sendReport`: the thrown
message as a function of the error body (`error.response.data.error ||
'未知错误'`, then substring checks). -/
def ReporterCoreV2.classifyReportError (rawMsg : String) : String :=
  let errorMsg := if rawMsg = "" then "未知错误" else rawMsg
  if jsIncludes errorMsg "没有注册公钥" || jsIncludes errorMsg "未找到公钥" then
    "未在服务器上注册公钥，请先运行 setup 命令注册公钥"
  else if jsIncludes errorMsg "签名验证失败" || jsIncludes errorMsg "无效签名" then
    "签名验证失败，如果您更换了环境，请联系教师重置您的公钥，然后重新运行 setup 命令"
  else if jsIncludes errorMsg "挑战码已过期" || jsIncludes errorMsg "挑战码不存在" then
    "挑战码验证失败，请稍后重试或联系教师"
  else errorMsg

/-- Second-variant `sendReport` (lines 852-939): fetches its own fresh
challenge `preChallenge`, signs it, posts the report once, and surfaces any
error after classification — it has no resubmission path. -/
def ReporterCoreV2.sendReport (preChallenge : String) (sign : String → String)
    (reply : Nat → ReportReply) : SendOutcome :=
  match reply 0 with
  | .ok cmd => .success cmd 1 (sign preChallenge)
  | .err _ _ msg => .failure (ReporterCoreV2.classifyReportError msg) 1
  | .netErr m => .failure m 1

/-- A server that answers the first report post with a stale-proof error
carrying a fresh challenge, and accepts the second post. -/
def replyStaleThenOk : Nat → ReportReply :=
  fun n => if n = 0 then .err true "c1" "挑战码已过期" else .ok none

/-- A server that answers every report post with the same stale-proof error
carrying a fresh challenge. -/
def replyStaleTwice : Nat → ReportReply :=
  fun _ => .err true "c1" "挑战码已过期"

/-- A placeholder signing function for concrete report runs. -/
def signW : String → String := fun c => "sig:" ++ c

/-! ## CLEAN_DATA (`StudentAPI.cleanData`, `src/api/student-api.js` lines
485-512, and `CommandHandler.cleanData`, `src/core/command-handler.js`
lines 115-136)

`StudentAPI.cleanData` fetches the todo list and deletes each todo in a
`for … of` loop; the whole body sits in a single `try`/`catch`, so the
first failing `DELETE` aborts the loop and yields `{success: false}`.
Resources are identified by their ids; `fetch` models the initial
`GET /todos`, `del` models `DELETE /todos/:id` for each id. -/

/-- Outcome of `StudentAPI.cleanData`: the JS `{success, message}` /
`{success, error}` object, with the message string in either case. -/
structure CleanResult where
  success : Bool
  message : String
deriving DecidableEq, Repr

/-- The `for (const todo of todos) await axios.delete(…)` loop: returns the
ids whose deletion was attempted and the error of the first failing
deletion, if any.  A failure stops the loop at once (the surrounding
`try`/`catch` is outside the loop). -/
def deleteLoop (del : Nat → Except String Unit) : List Nat → List Nat × Option String
  | [] => ([], none)
  | t :: ts =>
      match del t with
      | .ok _ =>
          let r := deleteLoop del ts
          (t :: r.1, r.2)
      | .error e => ([t], some e)

/-- `StudentAPI.cleanData`: fetch all todos, delete them in order, report
`{success: true, message: …}` only when every deletion succeeded; any
thrown error is caught and reported as `{success: false, error: …}`.
Returns the attempted ids alongside the result object. -/
def StudentAPI.cleanData (fetch : Except String (List Nat))
    (del : Nat → Except String Unit) : List Nat × CleanResult :=
  match fetch with
  | .error e => ([], { success := false, message := e })
  | .ok todos =>
      match deleteLoop del todos with
      | (att, none) =>
          (att, { success := true,
                  message := "成功清理 " ++ toString todos.length ++ " 个待办事项" })
      | (att, some e) => (att, { success := false, message := e })

/-- `CommandHandler.cleanData`: returns `result.success` as the handled
flag. -/
def CommandHandler.cleanData (fetch : Except String (List Nat))
    (del : Nat → Except String Unit) : Bool :=
  (StudentAPI.cleanData fetch del).2.success

/-- The C5 stub: three tracked resources, deleting resource 2 fails. -/
def delFailsAt2 : Nat → Except String Unit :=
  fun t => if t = 2 then .error "删除失败" else .ok ()

/-! ## Server-command dispatch (`CommandHandler.handleServerCommands`,
`src/core/command-handler.js` lines 12-57)

The dispatcher checks `response` and `response.command` for falsiness
before its `try` block, then routes ACTIVATE_MODULE to
`TestModuleManager.handleModuleCommand`, RUN_TEST to `this.runTests()`,
CLEAN_DATA to `this.cleanData()`, and RESET_KEYS to an inline reset
sequence; unknown commands log and return `false`; the `catch` turns any
raised error into `false`.

`command-handler.js` imports only `TestModuleManager`, yet the RESET_KEYS
branch begins with `await ConfigManager.loadConfig()` — an unresolved
identifier in that module — so executing the branch raises a
`ReferenceError` before any key state is touched.  The model renders this
as an `Except.error` raised with the key state unchanged. -/

/-- The `params` object of a server command. -/
structure CommandParams where
  moduleId : Option String
  active : Option Bool
deriving DecidableEq, Repr

/-- A server response as consumed by the dispatcher; `command` may be
absent (falsy). -/
structure ServerResponse where
  command : Option String
  params : CommandParams
deriving DecidableEq, Repr

/-- The local key state that a (working) RESET_KEYS would mutate: whether
`config.keyPair` is set and whether the key files exist on disk. -/
structure KeyState where
  keyPairConfigured : Bool
  keyFilesPresent : Bool
deriving DecidableEq, Repr

/-- Behavior of the sub-operations the dispatcher awaits inside its `try`:
each may return a boolean or throw. -/
structure CommandEnv where
  moduleCommandResult : CommandParams → Except String Bool
  runTestsResult : Except String Bool
  cleanDataResult : Except String Bool

/-- The body of the dispatcher's `try` block, raising `Except.error` where
the JS code would throw; an error carries the key state at the moment of
the throw.  The RESET_KEYS branch throws the `ReferenceError` caused by the
missing `ConfigManager` import on its first statement, so its error state
is the unchanged input state. -/
def dispatchCommand (env : CommandEnv) (cmd : String) (params : CommandParams)
    (st : KeyState) : Except (String × KeyState) (Bool × KeyState) :=
  if cmd = "ACTIVATE_MODULE" then
    match env.moduleCommandResult params with
    | .ok b => .ok (b, st)
    | .error e => .error (e, st)
  else if cmd = "RUN_TEST" then
    match env.runTestsResult with
    | .ok b => .ok (b, st)
    | .error e => .error (e, st)
  else if cmd = "CLEAN_DATA" then
    match env.cleanDataResult with
    | .ok b => .ok (b, st)
    | .error e => .error (e, st)
  else if cmd = "RESET_KEYS" then
    .error ("ReferenceError: ConfigManager is not defined", st)
  else .ok (false, st)

/-- `CommandHandler.handleServerCommands`: falsy checks, then the `try`
body, with the `catch` mapping any raised error to `false` while keeping
whatever state the body had reached. -/
def CommandHandler.handleServerCommands (env : CommandEnv)
    (response : Option ServerResponse) (st : KeyState) : Bool × KeyState :=
  match response with
  | none => (false, st)
  | some r =>
      match r.command with
      | none => (false, st)
      | some cmd =>
          match dispatchCommand env cmd r.params st with
          | .ok (b, st2) => (b, st2)
          | .error (_, st2) => (false, st2)

/-- A sub-operation environment whose module command and test run both
throw, for exercising the containment path. -/
def envThrowing : CommandEnv :=
  { moduleCommandResult := fun _ => .error "处理模块命令失败"
    runTestsResult := .error "运行测试失败"
    cleanDataResult := .ok false }

/-! ## Report sanitization (`sanitizeReportData` inside the second-variant
`createReportData`, `reporter-core.js` lines 824-837)

The helper walks `Object.keys(obj)`; a property that is a number and
`Number.isNaN` is replaced by 0; a property that is a non-null object
(including arrays) is recursed into.  Nothing else is touched: in
particular `Infinity` and `-Infinity` are numbers but not NaN, so they pass
through unchanged.  The first-variant `createReportData` (lines 191-247)
has no sanitization step at all. -/

mutual

/-- `sanitizeReportData(obj)` applied to a JS value: walks objects and
arrays; other values are returned unchanged (the JS helper is only ever
called on the report object). -/
def sanitizeReportData : JsValue → JsValue
  | .vObj fs => .vObj (sanitizeFieldsRD fs)
  | .vArr xs => .vArr (sanitizeListRD xs)
  | v => v

/-- The per-property action of `sanitizeReportData`: a NaN number becomes
0, non-null objects and arrays are recursed into, everything else is kept
as-is. -/
def sanitizeEntryRD : JsValue → JsValue
  | .vNum .nan => .vNum (.finite 0)
  | .vObj fs => .vObj (sanitizeFieldsRD fs)
  | .vArr xs => .vArr (sanitizeListRD xs)
  | v => v

/-- Sanitize every element of an array (its indices are its keys). -/
def sanitizeListRD : List JsValue → List JsValue
  | [] => []
  | x :: xs => sanitizeEntryRD x :: sanitizeListRD xs

/-- Sanitize every property of an object. -/
def sanitizeFieldsRD : List (String × JsValue) → List (String × JsValue)
  | [] => []
  | (k, v) :: rest => (k, sanitizeEntryRD v) :: sanitizeFieldsRD rest

end

mutual

/-- No NaN occurs in the value (at property positions or in the value
itself). -/
def nanFreeVal : JsValue → Bool
  | .vNum .nan => false
  | .vObj fs => nanFreeFields fs
  | .vArr xs => nanFreeList xs
  | _ => true

/-- No NaN occurs in any element. -/
def nanFreeList : List JsValue → Bool
  | [] => true
  | x :: xs => nanFreeVal x && nanFreeList xs

/-- No NaN occurs in any property value. -/
def nanFreeFields : List (String × JsValue) → Bool
  | [] => true
  | (_, v) :: rest => nanFreeVal v && nanFreeFields rest

end

mutual

/-- Some non-finite number (NaN or an infinity) occurs in the value. -/
def hasNonFiniteVal : JsValue → Bool
  | .vNum .nan => true
  | .vNum .inf => true
  | .vNum .negInf => true
  | .vObj fs => hasNonFiniteFields fs
  | .vArr xs => hasNonFiniteList xs
  | _ => false

/-- Some non-finite number occurs in an element. -/
def hasNonFiniteList : List JsValue → Bool
  | [] => false
  | x :: xs => hasNonFiniteVal x || hasNonFiniteList xs

/-- Some non-finite number occurs in a property value. -/
def hasNonFiniteFields : List (String × JsValue) → Bool
  | [] => false
  | (_, v) :: rest => hasNonFiniteVal v || hasNonFiniteFields rest

end

/-- A report object whose `score` field is `Infinity`. -/
def infReport : JsValue := .vObj [("score", .vNum .inf)]

/-! ## Theorems: the spec claims settled against the model -/

theorem truncateList_eq_take_map (mL mA : Nat) :
    ∀ (n : Nat) (xs : List JsValue),
      truncateList mL mA n xs = (xs.take n).map (truncateValue mL mA) := by
  intro n xs
  induction xs generalizing n with
  | nil => cases n <;> simp [truncateList]
  | cons x xs ih => cases n <;> simp [truncateList, ih]

mutual

theorem JsValue.beq_refl : ∀ (v : JsValue), JsValue.beq v v = true
  | .vNull => rfl
  | .vUndefined => rfl
  | .vBool b => by simp [JsValue.beq]
  | .vNum n => by simp [JsValue.beq]
  | .vStr s => by simp [JsValue.beq]
  | .vArr xs => by simp [JsValue.beq, JsValue.beqList_refl xs]
  | .vObj fs => by simp [JsValue.beq, JsValue.beqFields_refl fs]

theorem JsValue.beqList_refl : ∀ (xs : List JsValue), JsValue.beqList xs xs = true
  | [] => rfl
  | x :: xs => by simp [JsValue.beqList, JsValue.beq_refl x, JsValue.beqList_refl xs]

theorem JsValue.beqFields_refl : ∀ (fs : List (String × JsValue)), JsValue.beqFields fs fs = true
  | [] => rfl
  | (k, v) :: fs => by simp [JsValue.beqFields, JsValue.beq_refl v, JsValue.beqFields_refl fs]

end

theorem JsValue.ne_of_beq_false {x y : JsValue} (h : JsValue.beq x y = false) : x ≠ y := by
  intro he
  rw [he, JsValue.beq_refl] at h
  cases h

mutual

theorem truncateValue_of_inBounds (mL mA : Nat) :
    ∀ v, inBoundsVal mL mA v = true → truncateValue mL mA v = v
  | .vNull, _ => rfl
  | .vUndefined, _ => rfl
  | .vBool _, _ => rfl
  | .vNum _, _ => rfl
  | .vStr s, h => by
      simp only [inBoundsVal, decide_eq_true_eq] at h
      simp [truncateValue, show ¬ (s.length > mL) from by omega]
  | .vArr xs, h => by
      simp only [inBoundsVal, Bool.and_eq_true, decide_eq_true_eq] at h
      simp [truncateValue, show ¬ (xs.length > mA) from by omega,
            truncateList_of_inBounds mL mA mA xs h.2 h.1]
  | .vObj fs, h => by
      simp only [inBoundsVal] at h
      simp [truncateValue, truncateFields_of_inBounds mL mA fs h]

theorem truncateList_of_inBounds (mL mA : Nat) :
    ∀ (n : Nat) (xs : List JsValue), inBoundsList mL mA xs = true → xs.length ≤ n →
      truncateList mL mA n xs = xs
  | n, [], _, _ => by cases n <;> rfl
  | 0, x :: xs, _, hlen => absurd hlen (by simp)
  | n + 1, x :: xs, h, hlen => by
      simp only [inBoundsList, Bool.and_eq_true] at h
      simp [truncateList, truncateValue_of_inBounds mL mA x h.1,
            truncateList_of_inBounds mL mA n xs h.2 (by simpa using hlen)]

theorem truncateFields_of_inBounds (mL mA : Nat) :
    ∀ fs, inBoundsFields mL mA fs = true → truncateFields mL mA fs = fs
  | [], _ => rfl
  | (k, v) :: fs, h => by
      simp only [inBoundsFields, Bool.and_eq_true] at h
      simp [truncateFields, truncateValue_of_inBounds mL mA v h.1,
            truncateFields_of_inBounds mL mA fs h.2]

end

/-- Claim C4 (corrected), counterexample: at the reference limits
(`maxLength = 5000`, `maxArrayItems = 100`) the truncation of an array of
102 numbers is itself 101 items long, so a second application of
`truncateResponseData` truncates it again — with a different trailing
marker — and the two results differ.  Truncation is therefore not
idempotent, contrary to the claim. -/
theorem truncateResponseData_not_idempotent_cex :
    truncateValue 5000 100 (truncateValue 5000 100 truncEx) ≠ truncateValue 5000 100 truncEx ∧
    truncateResponseData 5000 100 (truncateResponseData 5000 100 (some truncExResp)) ≠
      truncateResponseData 5000 100 (some truncExResp) := by
  have hval : truncateValue 5000 100 (truncateValue 5000 100 truncEx) ≠
      truncateValue 5000 100 truncEx :=
    JsValue.ne_of_beq_false (by decide)
  refine ⟨hval, ?_⟩
  intro h
  simp only [truncateResponseData, truncExResp, Option.some.injEq, AxiosResponse.mk.injEq,
    true_and] at h
  exact hval h

/-- Claim C4 (amended): truncation is the identity — and hence idempotent —
on every payload already within the size bounds (all strings at most
`maxLength` characters and all arrays at most `maxArrayItems` items, at
every nesting level).  On payloads that actually get truncated it is not
idempotent (see the counterexample): the appended length-suffix or
item-count marker itself pushes the value past the bound again. -/
theorem truncateValue_idempotent_on_inBounds (mL mA : Nat) (v : JsValue)
    (h : inBoundsVal mL mA v = true) :
    truncateValue mL mA (truncateValue mL mA v) = truncateValue mL mA v := by
  have h2 := truncateValue_of_inBounds mL mA v h
  rw [h2]
  exact h2

/-- Witness for `truncateValue_idempotent_on_inBounds` at a concrete
in-bounds payload. -/
theorem truncateValue_idempotent_on_inBounds_witness :
    inBoundsVal 5000 100 (.vObj [("a", .vStr "ok"), ("b", .vArr [.vNum (.finite 1)])]) = true ∧
    truncateValue 5000 100 (truncateValue 5000 100
        (.vObj [("a", .vStr "ok"), ("b", .vArr [.vNum (.finite 1)])])) =
      truncateValue 5000 100 (.vObj [("a", .vStr "ok"), ("b", .vArr [.vNum (.finite 1)])]) :=
  ⟨by decide, truncateValue_idempotent_on_inBounds 5000 100 _ (by decide)⟩

theorem jsRound_100 : jsRound (100 : ℚ) = 100 := by
  rw [jsRound]
  exact Int.floor_eq_iff.mpr (by norm_num)

theorem toFixed2_100 : toFixed2 (100 : ℚ) = "100.00" := by
  have hfl : ⌊(100 : ℚ) * 100 + 1 / 2⌋ = (10000 : ℤ) := Int.floor_eq_iff.mpr (by norm_num)
  simp only [toFixed2, hfl]
  decide

theorem scenario4_score : scenario4.getSummary.score = 100 := by
  show (if (4 : ℕ) ≠ 0 then jsRound (((4 : ℕ) : ℚ) / ((4 : ℕ) : ℚ) * 100) else 0) = 100
  norm_num [jsRound_100]

theorem scenario4_passRate : scenario4.getSummary.passRate = "100.00%" := by
  show (if (4 : ℕ) ≠ 0 then toFixed2 (((4 : ℕ) : ℚ) / ((4 : ℕ) : ℚ) * 100) ++ "%" else "0%")
      = "100.00%"
  norm_num [toFixed2_100]
  decide

/-- Claim C2 (corrected), counterexample: with four test cases all passing,
`getSummary` reports `score = 100` (the rounded pass percentage), not
`10 * passedCount = 40` as claimed. -/
theorem getSummary_score_cex :
    scenario4.getSummary.score = 100 ∧ scenario4.getSummary.passed = 4 ∧
    scenario4.getSummary.score ≠ 10 * (scenario4.getSummary.passed : ℤ) := by
  refine ⟨scenario4_score, rfl, ?_⟩
  rw [scenario4_score]
  decide

/-- Claim C2 (amended): `maxPossibleScore = 10 * totalCount` holds for every
collector state, but `score` is the rounded pass percentage
`Math.round(passed / total * 100)` (0 when `total = 0`), not ten points per
passing test; the all-passing four-case module aggregates to
`{passed: 4, failed: 0, total: 4, score: 100, maxPossibleScore: 40,
passRate: "100.00%"}`. -/
theorem getSummary_score_amended :
    (∀ r : TestResults, r.getSummary.maxPossibleScore = 10 * r.getSummary.total) ∧
    scenario4.getSummary.passed = 4 ∧ scenario4.getSummary.failed = 0 ∧
    scenario4.getSummary.total = 4 ∧ scenario4.getSummary.score = 100 ∧
    scenario4.getSummary.maxPossibleScore = 40 ∧
    scenario4.getSummary.passRate = "100.00%" := by
  refine ⟨fun r => ?_, rfl, rfl, rfl, scenario4_score, rfl, scenario4_passRate⟩
  simp [TestResults.getSummary, Nat.mul_comm]

theorem pad2_length (m : Nat) (h : m < 100) : (pad2 m).length = 2 := by
  interval_cases m <;> rfl

/-- Claim C8 (confirmed): `passRate` is the fixed literal `"0%"` when
`totalCount` is 0 — the division is never evaluated in that case — and
otherwise it is `passed / total * 100` rendered by `toFixed(2)` as an
integer part, a dot and exactly two fraction digits, followed by `%`.
In particular it is a total, well-defined string: never `NaN` and no
division by zero. -/
theorem getSummary_passRate_safe (r : TestResults) :
    (r.total = 0 → r.getSummary.passRate = "0%") ∧
    (r.total ≠ 0 →
      r.getSummary.passRate = toFixed2 ((r.passed : ℚ) / (r.total : ℚ) * 100) ++ "%" ∧
      ∃ k m : Nat, m < 100 ∧ (pad2 m).length = 2 ∧
        r.getSummary.passRate = toString k ++ "." ++ pad2 m ++ "%") := by
  constructor
  · intro h
    simp [TestResults.getSummary, h]
  · intro h
    have hrate : r.getSummary.passRate
        = toFixed2 ((r.passed : ℚ) / (r.total : ℚ) * 100) ++ "%" := by
      simp [TestResults.getSummary, h]
    refine ⟨hrate, ?_⟩
    set n : Nat := (⌊(r.passed : ℚ) / (r.total : ℚ) * 100 * 100 + 1 / 2⌋).toNat with hn
    have hm : n % 100 < 100 := Nat.mod_lt _ (by norm_num)
    exact ⟨n / 100, n % 100, hm, pad2_length _ hm, by rw [hrate]; rfl⟩

/-- Witness for `getSummary_passRate_safe`: the empty collector yields the
literal `"0%"`, and the four-pass scenario yields a two-decimal percentage
string. -/
theorem getSummary_passRate_safe_witness :
    TestResults.new.getSummary.passRate = "0%" ∧
    (∃ k m : Nat, m < 100 ∧ (pad2 m).length = 2 ∧
      scenario4.getSummary.passRate = toString k ++ "." ++ pad2 m ++ "%") :=
  ⟨(getSummary_passRate_safe TestResults.new).1 rfl,
   ((getSummary_passRate_safe scenario4).2 (by decide)).2⟩

theorem TestResults.addResult_consistent (r : TestResults) (h : r.consistent)
    (n : String) (p : Bool) (m : String) : (r.addResult n p m).consistent := by
  obtain ⟨h1, h2⟩ := h
  constructor <;> cases p <;> simp [TestResults.addResult, h2] <;> omega

theorem TestResults.addAll_consistent :
    ∀ (calls : List (String × Bool × String)) (r : TestResults),
      r.consistent → (r.addAll calls).consistent
  | [], _, h => h
  | (n, p, m) :: rest, r, h =>
      TestResults.addAll_consistent rest _ (r.addResult_consistent h n p m)

/-- Claim C10 (confirmed): starting from a fresh collector, after any
sequence of `addResult` calls the counters satisfy
`passed + failed = total = tests.length`, and `getSummary` reports those
same mutually consistent counts and list.  Since the sequence is arbitrary,
the invariant holds after every call of any run. -/
theorem addResult_invariant (calls : List (String × Bool × String)) :
    (TestResults.new.addAll calls).passed + (TestResults.new.addAll calls).failed
        = (TestResults.new.addAll calls).total ∧
    (TestResults.new.addAll calls).total = (TestResults.new.addAll calls).tests.length ∧
    (TestResults.new.addAll calls).getSummary.passed
        + (TestResults.new.addAll calls).getSummary.failed
      = (TestResults.new.addAll calls).getSummary.total ∧
    (TestResults.new.addAll calls).getSummary.total
      = (TestResults.new.addAll calls).getSummary.tests.length := by
  have h := TestResults.addAll_consistent calls TestResults.new ⟨rfl, rfl⟩
  exact ⟨h.1, h.2, h.1, h.2⟩

/-- Claim C1 (corrected), counterexample: against a server that always
returns `requiresReregistration`, the first-variant `authenticate` performs
three key regenerations within the first three recursion steps — not at
most one — and is still recursing (no terminal failure has been returned).
Larger fuel values give correspondingly more regenerations, so the claimed
once-only bound is violated. -/
theorem authenticate_rereg_bound_cex :
    (ReporterCore.authenticate srvAlwaysRereg signExample true 3 0 0).2 = 3 ∧
    (ReporterCore.authenticate srvAlwaysRereg signExample true 3 0 0).1 = .fuelExhausted ∧
    ¬ (ReporterCore.authenticate srvAlwaysRereg signExample true 3 0 0).2 ≤ 1 := by
  refine ⟨rfl, rfl, by decide⟩

/-- Claim C1 (amended): the two variants bracket the claimed behavior but
neither matches it.  Against a server that always returns
`requiresReregistration`, the first-variant `authenticate` regenerates the
key once per attempt without any bound — after `fuel` recursion steps it has
performed `fuel` regenerations and is still recursing, for every `fuel` — so
it never returns a terminal failure; the second variant performs zero
automatic retries and fails terminally at once. -/
theorem authenticate_rereg_unbounded_amended :
    (∀ (sign : Nat → String → String) (fuel attempt regens : Nat),
        ReporterCore.authenticate srvAlwaysRereg sign true fuel attempt regens
          = (.fuelExhausted, regens + fuel)) ∧
    (∀ sign2 : String → String,
        ReporterCoreV2.authenticate srvAlwaysRereg sign2 true = .reregRequired) := by
  constructor
  · intro sign fuel
    induction fuel with
    | zero => intro attempt regens; simp [ReporterCore.authenticate]
    | succ n ih =>
        intro attempt regens
        rw [ReporterCore.authenticate]
        simpa [srvAlwaysRereg, Nat.add_comm, Nat.add_assoc, Nat.add_left_comm] using
          ih (attempt + 1) (regens + 1)
  · intro sign2
    rfl

/-- Claim C3 (corrected), counterexample: the second-variant `sendReport`,
given a first response that is a stale-proof error with a fresh challenge
embedded (and a server that would accept a resubmission), does not resubmit
at all: it returns a classified failure after exactly one attempt, whereas
the claim requires a single resubmission and success. -/
theorem sendReport_resubmit_cex :
    ReporterCoreV2.sendReport "pre" signW replyStaleThenOk
      = .failure "挑战码验证失败，请稍后重试或联系教师" 1 ∧
    (ReporterCoreV2.sendReport "pre" signW replyStaleThenOk).attempts = 1 ∧
    ¬ (ReporterCoreV2.sendReport "pre" signW replyStaleThenOk).attempts = 2 := by
  refine ⟨by decide, by decide, by decide⟩

/-- Claim C3 (amended): the first-variant `sendReport` behaves exactly as
claimed — on an error body carrying `requiresAuth` and a fresh challenge it
re-signs that challenge and resubmits exactly once, returning the second
attempt's success, or surfacing the second attempt's failure after exactly
two attempts; it never issues more than two posts.  The second variant,
however, never resubmits: every run issues exactly one post. -/
theorem sendReport_retry_amended :
    (∀ (reply : Nat → ReportReply) (sign : String → String) (sig0 ch msg : String),
        ch ≠ "" → reply 0 = .err true ch msg →
        ((∀ cmd, reply 1 = .ok cmd →
            ReporterCore.sendReport reply sign sig0 = .success cmd 2 (sign ch)) ∧
         (∀ ra2 ch2 msg2, reply 1 = .err ra2 ch2 msg2 →
            ReporterCore.sendReport reply sign sig0 = .failure msg2 2))) ∧
    (∀ (reply : Nat → ReportReply) (sign : String → String) (sig0 : String),
        (ReporterCore.sendReport reply sign sig0).attempts ≤ 2) ∧
    (∀ (preChallenge : String) (sign : String → String) (reply : Nat → ReportReply),
        (ReporterCoreV2.sendReport preChallenge sign reply).attempts = 1) := by
  refine ⟨?_, ?_, ?_⟩
  · intro reply sign sig0 ch msg hch h0
    have hbne : (ch != "") = true := bne_iff_ne.mpr hch
    constructor
    · intro cmd h1
      simp [ReporterCore.sendReport, h0, h1, hbne]
    · intro ra2 ch2 msg2 h1
      simp [ReporterCore.sendReport, h0, h1, hbne]
  · intro reply sign sig0
    rw [ReporterCore.sendReport]
    cases h0 : reply 0 with
    | ok cmd => simp [SendOutcome.attempts]
    | err ra ch msg =>
        by_cases hc : (ra && ch != "") = true
        · simp only [hc, if_true]
          cases h1 : reply 1 <;> simp [SendOutcome.attempts]
        · simp only [hc, if_false, Bool.not_eq_true] at *
          simp [hc, SendOutcome.attempts]
    | netErr m => simp [SendOutcome.attempts]
  · intro preChallenge sign reply
    rw [ReporterCoreV2.sendReport]
    cases h0 : reply 0 <;> simp [SendOutcome.attempts]

/-- Witness for `sendReport_retry_amended` at concrete servers: stale error
then acceptance gives success on the second post with the re-signed fresh
challenge; the same stale error twice gives failure after exactly two
posts. -/
theorem sendReport_retry_amended_witness :
    ReporterCore.sendReport replyStaleThenOk signW "s0" = .success none 2 (signW "c1") ∧
    ReporterCore.sendReport replyStaleTwice signW "s0" = .failure "挑战码已过期" 2 :=
  ⟨(sendReport_retry_amended.1 replyStaleThenOk signW "s0" "c1" "挑战码已过期"
      (by decide) rfl).1 none rfl,
   (sendReport_retry_amended.1 replyStaleTwice signW "s0" "c1" "挑战码已过期"
      (by decide) rfl).2 true "c1" "挑战码已过期" rfl⟩

/-- Claim C5 (corrected), counterexample: with resources `[1, 2, 3]` and
the deletion of resource 2 failing, only resources 1 and 2 are attempted —
resource 3 is never tried — and the command reports `handled = false`, not
`handled = true` as claimed. -/
theorem cleanData_partial_failure_cex :
    (StudentAPI.cleanData (.ok [1, 2, 3]) delFailsAt2).1 = [1, 2] ∧
    (StudentAPI.cleanData (.ok [1, 2, 3]) delFailsAt2).1 ≠ [1, 2, 3] ∧
    CommandHandler.cleanData (.ok [1, 2, 3]) delFailsAt2 = false ∧
    ¬ CommandHandler.cleanData (.ok [1, 2, 3]) delFailsAt2 = true := by
  refine ⟨by decide, by decide, by decide, by decide⟩

theorem deleteLoop_all_ok (del : Nat → Except String Unit) :
    ∀ ts : List Nat, (∀ x ∈ ts, del x = .ok ()) → deleteLoop del ts = (ts, none) := by
  intro ts h
  induction ts with
  | nil => rfl
  | cons t ts ih =>
      have ht : del t = .ok () := h t (by simp)
      simp [deleteLoop, ht, ih fun x hx => h x (by simp [hx])]

theorem deleteLoop_ok_then (del : Nat → Except String Unit) :
    ∀ (pre rest : List Nat), (∀ x ∈ pre, del x = .ok ()) →
      deleteLoop del (pre ++ rest)
        = (pre ++ (deleteLoop del rest).1, (deleteLoop del rest).2) := by
  intro pre rest h
  induction pre with
  | nil => simp
  | cons p pre ih =>
      have hp : del p = .ok () := h p (by simp)
      simp [deleteLoop, hp, ih fun x hx => h x (by simp [hx])]

/-- Claim C5 (amended): the CLEAN_DATA loop is fail-fast, not
partial-failure tolerant.  If every deletion before some resource `t`
succeeds and deleting `t` fails, exactly the resources up to and including
`t` are attempted — the rest are skipped — and the command reports
`handled = false`; only when every deletion succeeds are all resources
attempted and `handled = true` reported. -/
theorem cleanData_fail_fast_amended :
    (∀ (del : Nat → Except String Unit) (pre : List Nat) (t : Nat) (post : List Nat)
        (e : String), (∀ x ∈ pre, del x = .ok ()) → del t = .error e →
        StudentAPI.cleanData (.ok (pre ++ t :: post)) del
            = (pre ++ [t], { success := false, message := e }) ∧
        CommandHandler.cleanData (.ok (pre ++ t :: post)) del = false) ∧
    (∀ (del : Nat → Except String Unit) (todos : List Nat),
        (∀ x ∈ todos, del x = .ok ()) →
        StudentAPI.cleanData (.ok todos) del
            = (todos, { success := true,
                        message := "成功清理 " ++ toString todos.length ++ " 个待办事项" }) ∧
        CommandHandler.cleanData (.ok todos) del = true) := by
  constructor
  · intro del pre t post e hpre ht
    have hloop : deleteLoop del (pre ++ t :: post) = (pre ++ [t], some e) := by
      rw [deleteLoop_ok_then del pre (t :: post) hpre]
      simp [deleteLoop, ht]
    have hclean : StudentAPI.cleanData (.ok (pre ++ t :: post)) del
        = (pre ++ [t], { success := false, message := e }) := by
      simp [StudentAPI.cleanData, hloop]
    exact ⟨hclean, by simp [CommandHandler.cleanData, hclean]⟩
  · intro del todos h
    have hloop := deleteLoop_all_ok del todos h
    have hclean : StudentAPI.cleanData (.ok todos) del
        = (todos, { success := true,
                    message := "成功清理 " ++ toString todos.length ++ " 个待办事项" }) := by
      simp [StudentAPI.cleanData, hloop]
    exact ⟨hclean, by simp [CommandHandler.cleanData, hclean]⟩

/-- Witness for `cleanData_fail_fast_amended` at the three-resource stub:
the failing run attempts `[1, 2]` with `handled = false`, and a fully
succeeding run attempts everything with `handled = true`. -/
theorem cleanData_fail_fast_amended_witness :
    (StudentAPI.cleanData (.ok [1, 2, 3]) delFailsAt2
        = ([1, 2], { success := false, message := "删除失败" }) ∧
      CommandHandler.cleanData (.ok [1, 2, 3]) delFailsAt2 = false) ∧
    (StudentAPI.cleanData (.ok [4, 5]) delFailsAt2
        = ([4, 5], { success := true, message := "成功清理 2 个待办事项" }) ∧
      CommandHandler.cleanData (.ok [4, 5]) delFailsAt2 = true) :=
  ⟨cleanData_fail_fast_amended.1 delFailsAt2 [1] 2 [3] "删除失败"
      (by intro x hx; simp at hx; subst hx; rfl) rfl,
   cleanData_fail_fast_amended.2 delFailsAt2 [4, 5]
      (by intro x hx; simp at hx; rcases hx with h | h <;> subst h <;> rfl)⟩

/-- Claim C6 (code_bug): dispatching RESET_KEYS always returns
`handled = false` and leaves the key state untouched — the key-pair
configuration is not cleared and no key file is deleted — because the
branch's first statement references the never-imported `ConfigManager` and
the resulting `ReferenceError` is swallowed by the dispatcher's `catch`.
The claimed behavior (delegate to the key reset, return `handled = true`)
is what the branch body visibly intends but can never reach. -/
theorem handleServerCommands_resetKeys_broken (env : CommandEnv)
    (params : CommandParams) (st : KeyState) :
    CommandHandler.handleServerCommands env
        (some { command := some "RESET_KEYS", params := params }) st = (false, st) := by
  simp [CommandHandler.handleServerCommands, dispatchCommand]

/-- Claim C9 (confirmed): the dispatcher always returns a boolean.  A
missing response or command yields `false`; an unknown command yields
`false` with the state untouched; and any error raised by a dispatched
command is contained by the `catch` and reported as `false` instead of
propagating. -/
theorem handleServerCommands_total (env : CommandEnv) (st : KeyState) :
    (CommandHandler.handleServerCommands env none st = (false, st)) ∧
    (∀ params, CommandHandler.handleServerCommands env
        (some { command := none, params := params }) st = (false, st)) ∧
    (∀ cmd params,
        cmd ∉ (["ACTIVATE_MODULE", "RUN_TEST", "CLEAN_DATA", "RESET_KEYS"] : List String) →
        CommandHandler.handleServerCommands env
            (some { command := some cmd, params := params }) st = (false, st)) ∧
    (∀ cmd params e st2, dispatchCommand env cmd params st = .error (e, st2) →
        CommandHandler.handleServerCommands env
            (some { command := some cmd, params := params }) st = (false, st2)) := by
  refine ⟨rfl, fun params => rfl, ?_, ?_⟩
  · intro cmd params hcmd
    simp only [List.mem_cons, List.mem_singleton, not_or] at hcmd
    obtain ⟨h1, h2, h3, h4, _⟩ := hcmd
    simp [CommandHandler.handleServerCommands, dispatchCommand, h1, h2, h3, h4]
  · intro cmd params e st2 hd
    simp [CommandHandler.handleServerCommands, hd]

/-- Witness for `handleServerCommands_total`: an unknown command and a
throwing RUN_TEST both come back as `handled = false` with no exception. -/
theorem handleServerCommands_total_witness :
    CommandHandler.handleServerCommands envThrowing
        (some { command := some "FOO", params := { moduleId := none, active := none } })
        { keyPairConfigured := true, keyFilesPresent := true } =
      (false, { keyPairConfigured := true, keyFilesPresent := true }) ∧
    CommandHandler.handleServerCommands envThrowing
        (some { command := some "RUN_TEST", params := { moduleId := none, active := none } })
        { keyPairConfigured := true, keyFilesPresent := true } =
      (false, { keyPairConfigured := true, keyFilesPresent := true }) :=
  ⟨(handleServerCommands_total envThrowing
        { keyPairConfigured := true, keyFilesPresent := true }).2.2.1 "FOO"
      { moduleId := none, active := none } (by decide),
   (handleServerCommands_total envThrowing
        { keyPairConfigured := true, keyFilesPresent := true }).2.2.2 "RUN_TEST"
      { moduleId := none, active := none } "运行测试失败"
      { keyPairConfigured := true, keyFilesPresent := true } rfl⟩

/-- Claim C7 (corrected), counterexample: a report object carrying an
`Infinity` field passes through `sanitizeReportData` unchanged, so the
assembled report still contains a non-finite number — the sanitizer checks
`Number.isNaN` only, not finiteness. -/
theorem sanitizeReportData_inf_cex :
    sanitizeReportData infReport = infReport ∧
    hasNonFiniteVal (sanitizeReportData infReport) = true := by
  refine ⟨rfl, rfl⟩

mutual

theorem nanFree_sanitizeEntry : ∀ v, nanFreeVal (sanitizeEntryRD v) = true
  | .vNull => rfl
  | .vUndefined => rfl
  | .vBool _ => rfl
  | .vStr _ => rfl
  | .vNum n => by cases n <;> rfl
  | .vObj fs => by simp [sanitizeEntryRD, nanFreeVal, nanFree_sanitizeFields fs]
  | .vArr xs => by simp [sanitizeEntryRD, nanFreeVal, nanFree_sanitizeList xs]

theorem nanFree_sanitizeList : ∀ xs, nanFreeList (sanitizeListRD xs) = true
  | [] => rfl
  | x :: xs => by
      simp [sanitizeListRD, nanFreeList, nanFree_sanitizeEntry x, nanFree_sanitizeList xs]

theorem nanFree_sanitizeFields : ∀ fs, nanFreeFields (sanitizeFieldsRD fs) = true
  | [] => rfl
  | (k, v) :: fs => by
      simp [sanitizeFieldsRD, nanFreeFields, nanFree_sanitizeEntry v, nanFree_sanitizeFields fs]

end

/-- Claim C7 (amended): the second-variant `createReportData` sanitization
replaces exactly the NaN numeric fields with 0, recursively through nested
objects and arrays, so the assembled report contains no NaN; non-NaN
numbers — including the infinities — are left unchanged.  (The
first-variant `createReportData` performs no sanitization at all.) -/
theorem sanitizeReportData_nan_amended :
    (∀ fs, nanFreeVal (sanitizeReportData (.vObj fs)) = true) ∧
    (∀ xs, nanFreeVal (sanitizeReportData (.vArr xs)) = true) ∧
    (∀ n : JsNum, n ≠ .nan → sanitizeEntryRD (.vNum n) = .vNum n) := by
  refine ⟨?_, ?_, ?_⟩
  · intro fs
    simp [sanitizeReportData, nanFreeVal, nanFree_sanitizeFields fs]
  · intro xs
    simp [sanitizeReportData, nanFreeVal, nanFree_sanitizeList xs]
  · intro n h
    cases n with
    | finite q => rfl
    | nan => exact absurd rfl h
    | inf => rfl
    | negInf => rfl

/-- Witness for `sanitizeReportData_nan_amended`: a nested report with NaN
fields sanitizes to a NaN-free value, and an `Infinity` entry is preserved
as-is. -/
theorem sanitizeReportData_nan_amended_witness :
    nanFreeVal (sanitizeReportData
        (.vObj [("a", .vNum .nan), ("b", .vObj [("c", .vNum .nan)])])) = true ∧
    sanitizeEntryRD (.vNum .inf) = .vNum .inf :=
  ⟨sanitizeReportData_nan_amended.1 [("a", .vNum .nan), ("b", .vObj [("c", .vNum .nan)])],
   sanitizeReportData_nan_amended.2.2 .inf (by decide)⟩
